import Mathlib

/-!
Shallow embedding of the Stronghold procedure engine
(src/client/src/procedures/primitives.rs) in Lean 4.

Byte buffers are lists of naturals. External cryptographic primitives
(hashes, HMAC, HKDF, PBKDF2, curve operations, BIP-39 seed derivation,
AEAD) come from a cryptography provider that the spec pins down only by
its interface and length constants; they are modelled by a
CryptoProvider structure carrying the primitive functions together with
their output-length constants. Randomness (the fill calls) is made
explicit: a generating procedure that samples entropy takes the sampled
bytes as an argument.
-/

namespace Stronghold

/-- Byte strings: the Rust Vec of u8 and slices of u8. -/
abbrev Bytes := List Nat

/-- Modelled from the spec: a Location is an opaque pair (vault-id,
record-id) identifying one record; equality is structural. The concrete
Location type lives outside src. -/
structure Location where
  vault_path : Bytes
  record_path : Bytes
deriving DecidableEq, Repr

/-- Modelled from the spec: a RecordHint is a small non-secret tag
stored with a vault record. The concrete type lives outside src. -/
structure RecordHint where
  hint : Bytes
deriving DecidableEq, Repr

/-- Modelled from the spec: Products is the (secret, output) pair
returned by a Generate or Derive primitive; declared in the missing
types module, used throughout primitives.rs. -/
structure Products (T : Type) where
  secret : Bytes
  output : T
deriving Repr, DecidableEq

/-- Errors of the external crypto crate that primitives.rs constructs or
propagates: the BufferSize error built in x25519_secret_key and
ed25519_secret_key, and an invalid-argument error for rejected
parameters of a primitive. -/
inductive CryptoError where
  | bufferSize (has : Nat) (needs : Nat) (name : String)
  | invalidArgument (alg : String)
deriving DecidableEq, Repr

/-- Modelled from the spec: a FatalProcedureError signals that the
cryptographic computation itself failed; crypto-crate errors enter it
via the From conversion used by the question-mark operator in
primitives.rs. The concrete enum lives outside src, but the signatures
in src show generate, derive and use_secret all return this type. -/
inductive FatalProcedureError where
  | crypto (e : CryptoError)
deriving DecidableEq, Repr

/-- Modelled from the spec: the recoverable error taxonomy
(ProcedureError) with the kinds the spec lists, plus the constructor
embedding a FatalProcedureError, since the dispatcher in src returns
Result of ProcedureError for every variant. -/
inductive ProcedureError where
  | sourceMissing
  | sourceLocked
  | invalidParameter
  | inputLengthMismatch
  | badChain
  | targetWriteFailed
  | fatal (e : FatalProcedureError)
deriving DecidableEq, Repr

/-- The MnemonicLanguage enum of primitives.rs. -/
inductive MnemonicLanguage where
  | English
  | Japanese
deriving DecidableEq, Repr

/-- The AeadAlg enum of primitives.rs. -/
inductive AeadAlg where
  | Aes256Gcm
  | XChaCha20Poly1305
deriving DecidableEq, Repr

/-- The KeyType enum of primitives.rs. -/
inductive KeyType where
  | Ed25519
  | X25519
deriving DecidableEq, Repr

/-- The Sha2Hash enum of primitives.rs. -/
inductive Sha2Hash where
  | Sha256
  | Sha384
  | Sha512
deriving DecidableEq, Repr

/-- The HashType enum of primitives.rs. -/
inductive HashType where
  | Blake2b
  | Sha2 (h : Sha2Hash)
deriving DecidableEq, Repr

/-- The Slip10ParentType enum of primitives.rs. -/
inductive Slip10ParentType where
  | Seed
  | Key
deriving DecidableEq, Repr

/-- A SLIP-10 derivation chain of the external slip10 module, a list of
path segments. -/
abbrev Chain := List Nat

/-- Constants of the crypto provider: x25519 secret keys are 32 bytes. -/
def X25519_SECRET_KEY_LENGTH : Nat := 32

/-- Constants of the crypto provider: ed25519 secret keys are 32 bytes. -/
def ED25519_SECRET_KEY_LENGTH : Nat := 32

/-- Constants of the crypto provider: SHA-256 digests are 32 bytes. -/
def SHA256_LEN : Nat := 32

/-- Constants of the crypto provider: SHA-384 digests are 48 bytes. -/
def SHA384_LEN : Nat := 48

/-- Constants of the crypto provider: SHA-512 digests are 64 bytes. -/
def SHA512_LEN : Nat := 64

/-- Constants of the crypto provider: both AEAD algorithms use a
16-byte authentication tag. -/
def AEAD_TAG_LENGTH : Nat := 16

/-- Nonce length per AEAD algorithm: 12 for AES-256-GCM, 24 for
XChaCha20-Poly1305. -/
def AeadAlg.nonceLength : AeadAlg → Nat
  | .Aes256Gcm => 12
  | .XChaCha20Poly1305 => 24

/-- Modelled from the spec: the external cryptography provider supplies
the primitives named in the spec as opaque callables plus their length
constants. Each field is one primitive; the proof fields pin the output
lengths the provider guarantees (fixed-size output buffers in the
source). -/
structure CryptoProvider where
  blake2b256 : Bytes → Bytes
  sha256 : Bytes → Bytes
  sha384 : Bytes → Bytes
  sha512 : Bytes → Bytes
  hmacSha256 : Bytes → Bytes → Bytes
  hmacSha384 : Bytes → Bytes → Bytes
  hmacSha512 : Bytes → Bytes → Bytes
  hkdfSha256 : Bytes → Bytes → Bytes → Bytes
  hkdfSha384 : Bytes → Bytes → Bytes → Bytes
  hkdfSha512 : Bytes → Bytes → Bytes → Bytes
  pbkdf2Sha256 : Bytes → Bytes → Nat → Bytes
  pbkdf2Sha384 : Bytes → Bytes → Nat → Bytes
  pbkdf2Sha512 : Bytes → Bytes → Nat → Bytes
  ed25519Public : Bytes → Bytes
  ed25519Sign : Bytes → Bytes → Bytes
  x25519Public : Bytes → Bytes
  x25519Dh : Bytes → Bytes → Bytes
  bip39Encode : Bytes → MnemonicLanguage → String
  mnemonicToSeed : String → String → Bytes
  slip10KeyTryFrom : Bytes → Except CryptoError Bytes
  slip10DeriveKey : Bytes → Chain → Except CryptoError Bytes
  slip10DeriveSeed : Bytes → Chain → Except CryptoError Bytes
  slip10ChainCode : Bytes → Bytes
  aeadCt : AeadAlg → Bytes → Bytes → Bytes → Bytes → Bytes
  aeadTag : AeadAlg → Bytes → Bytes → Bytes → Bytes → Bytes
  blake2b256_len : ∀ m, (blake2b256 m).length = 32
  sha256_len : ∀ m, (sha256 m).length = SHA256_LEN
  sha384_len : ∀ m, (sha384 m).length = SHA384_LEN
  sha512_len : ∀ m, (sha512 m).length = SHA512_LEN
  hmacSha256_len : ∀ m k, (hmacSha256 m k).length = SHA256_LEN
  hmacSha384_len : ∀ m k, (hmacSha384 m k).length = SHA384_LEN
  hmacSha512_len : ∀ m k, (hmacSha512 m k).length = SHA512_LEN
  mnemonicToSeed_len : ∀ m p, (mnemonicToSeed m p).length = 64
  aeadCt_len : ∀ a k n ad pt, (aeadCt a k n ad pt).length = pt.length
  aeadTag_len : ∀ a k n ad pt, (aeadTag a k n ad pt).length = AEAD_TAG_LENGTH

/-- A concrete provider instance (every primitive returns zero bytes of
the correct length) used to evaluate the development on concrete
inputs. -/
def dummyProvider : CryptoProvider where
  blake2b256 := fun _ => List.replicate 32 0
  sha256 := fun _ => List.replicate 32 0
  sha384 := fun _ => List.replicate 48 0
  sha512 := fun _ => List.replicate 64 0
  hmacSha256 := fun _ _ => List.replicate 32 0
  hmacSha384 := fun _ _ => List.replicate 48 0
  hmacSha512 := fun _ _ => List.replicate 64 0
  hkdfSha256 := fun _ _ _ => List.replicate 32 0
  hkdfSha384 := fun _ _ _ => List.replicate 48 0
  hkdfSha512 := fun _ _ _ => List.replicate 64 0
  pbkdf2Sha256 := fun _ _ _ => List.replicate 32 0
  pbkdf2Sha384 := fun _ _ _ => List.replicate 48 0
  pbkdf2Sha512 := fun _ _ _ => List.replicate 64 0
  ed25519Public := fun _ => List.replicate 32 0
  ed25519Sign := fun _ _ => List.replicate 64 0
  x25519Public := fun _ => List.replicate 32 0
  x25519Dh := fun _ _ => List.replicate 32 0
  bip39Encode := fun _ _ => "mnemonic sentence"
  mnemonicToSeed := fun _ _ => List.replicate 64 0
  slip10KeyTryFrom := fun b => .ok b
  slip10DeriveKey := fun _ _ => .ok (List.replicate 65 0)
  slip10DeriveSeed := fun _ _ => .ok (List.replicate 65 0)
  slip10ChainCode := fun _ => List.replicate 32 0
  aeadCt := fun _ _ _ _ pt => List.replicate pt.length 0
  aeadTag := fun _ _ _ _ _ => List.replicate 16 0
  blake2b256_len := fun _ => by simp
  sha256_len := fun _ => by simp [SHA256_LEN]
  sha384_len := fun _ => by simp [SHA384_LEN]
  sha512_len := fun _ => by simp [SHA512_LEN]
  hmacSha256_len := fun _ _ => by simp [SHA256_LEN]
  hmacSha384_len := fun _ _ => by simp [SHA384_LEN]
  hmacSha512_len := fun _ _ => by simp [SHA512_LEN]
  mnemonicToSeed_len := fun _ _ => by simp
  aeadCt_len := fun _ _ _ _ _ => by simp
  aeadTag_len := fun _ _ _ _ _ => by simp [AEAD_TAG_LENGTH]

/-- Modelled from the spec: the provider function
x25519::SecretKey::try_from_slice accepts exactly 32 bytes and returns
the key; it is external to src. -/
def x25519_try_from_slice (raw : Bytes) : Except CryptoError Bytes :=
  if raw.length = X25519_SECRET_KEY_LENGTH then .ok raw
  else .error (.bufferSize raw.length X25519_SECRET_KEY_LENGTH "secret key")

/-- Embedding of x25519_secret_key (primitives.rs lines 354-366): if the
lease length differs from 32, build a BufferSize error and return it
without touching the provider; otherwise hand the bytes to
try_from_slice. -/
def x25519_secret_key (raw : Bytes) : Except CryptoError Bytes :=
  if raw.length ≠ X25519_SECRET_KEY_LENGTH then
    .error (.bufferSize raw.length X25519_SECRET_KEY_LENGTH "data buffer")
  else
    x25519_try_from_slice raw

/-- Embedding of ed25519_secret_key (primitives.rs lines 368-384): a
lease shorter than 32 bytes yields a BufferSize error; otherwise the
raw bytes are truncated to the first 32 and wrapped as a secret key. -/
def ed25519_secret_key (raw : Bytes) : Except CryptoError Bytes :=
  if raw.length < ED25519_SECRET_KEY_LENGTH then
    .error (.bufferSize raw.length ED25519_SECRET_KEY_LENGTH "data buffer")
  else
    .ok (raw.take ED25519_SECRET_KEY_LENGTH)

/-- Map the error of an Except value, as the Rust question-mark
operator does through From conversions. -/
def emapError {e e2 a : Type} (f : e → e2) : Except e a → Except e2 a
  | .ok v => .ok v
  | .error err => .error (f err)

/-- The CopyRecord procedure record of primitives.rs. -/
structure CopyRecord where
  input : Location
  output : Location
  hint : RecordHint
deriving DecidableEq, Repr

/-- Embedding of the DeriveSecret impl for CopyRecord (primitives.rs
lines 138-156): the produced secret is the lease contents, the
non-secret output is unit. -/
def CopyRecord.derive (_c : CopyRecord) (guard : Bytes) :
    Except FatalProcedureError (Products Unit) :=
  .ok { secret := guard, output := () }

/-- CopyRecord declares its source as the input location. -/
def CopyRecord.source (c : CopyRecord) : Location := c.input

/-- CopyRecord declares its target as the output location with hint. -/
def CopyRecord.target (c : CopyRecord) : Location × RecordHint :=
  (c.output, c.hint)

/-- The BIP39Generate procedure record of primitives.rs. -/
structure BIP39Generate where
  passphrase : Option String
  language : MnemonicLanguage
  output : Location
  hint : RecordHint
deriving DecidableEq, Repr

/-- Embedding of the GenerateSecret impl for BIP39Generate
(primitives.rs lines 207-234). The 32 bytes sampled by fill are passed
explicitly as the entropy argument; the mnemonic encodes the entropy
over the wordlist selected by the language, the seed is derived from
the mnemonic and the passphrase (absent passphrase read as empty), the
seed is the secret and the mnemonic the output. -/
def BIP39Generate.generate (P : CryptoProvider) (g : BIP39Generate)
    (entropy : Bytes) : Except FatalProcedureError (Products String) :=
  let mnemonic := P.bip39Encode entropy g.language
  let passphrase := g.passphrase.getD ""
  let seed := P.mnemonicToSeed mnemonic passphrase
  .ok { secret := seed, output := mnemonic }

/-- BIP39Generate declares its target location with hint. -/
def BIP39Generate.target (g : BIP39Generate) : Location × RecordHint :=
  (g.output, g.hint)

/-- The BIP39Recover procedure record of primitives.rs. -/
structure BIP39Recover where
  passphrase : Option String
  mnemonic : String
  output : Location
  hint : RecordHint
deriving DecidableEq, Repr

/-- Embedding of the GenerateSecret impl for BIP39Recover
(primitives.rs lines 249-265): the seed is derived from the supplied
mnemonic and the passphrase (absent passphrase read as empty) with no
validation of the mnemonic; the seed is the secret, the output unit. -/
def BIP39Recover.generate (P : CryptoProvider) (r : BIP39Recover) :
    Except FatalProcedureError (Products Unit) :=
  let passphrase := r.passphrase.getD ""
  let seed := P.mnemonicToSeed r.mnemonic passphrase
  .ok { secret := seed, output := () }

/-- BIP39Recover declares its target location with hint. -/
def BIP39Recover.target (r : BIP39Recover) : Location × RecordHint :=
  (r.output, r.hint)

/-- The Slip10Generate procedure record of primitives.rs. -/
structure Slip10Generate where
  size_bytes : Option Nat
  output : Location
  hint : RecordHint
deriving DecidableEq, Repr

/-- Embedding of the GenerateSecret impl for Slip10Generate
(primitives.rs lines 281-297): the sampled seed bytes (of length
size_bytes, default 64) are passed explicitly and stored as secret. -/
def Slip10Generate.generate (_g : Slip10Generate) (seed : Bytes) :
    Except FatalProcedureError (Products Unit) :=
  .ok { secret := seed, output := () }

/-- The Slip10Derive procedure record of primitives.rs. -/
structure Slip10Derive where
  chain : Chain
  parent_ty : Slip10ParentType
  input : Location
  output : Location
  hint : RecordHint
deriving DecidableEq, Repr

/-- Embedding of the DeriveSecret impl for Slip10Derive (primitives.rs
lines 327-352): for a Key parent the lease is parsed as an extended key
then derived down the chain, for a Seed parent the lease is read as a
seed and derived down the chain on the Ed25519 curve; the derived key
is the secret and its chain code the output. -/
def Slip10Derive.derive (P : CryptoProvider) (s : Slip10Derive)
    (guard : Bytes) : Except FatalProcedureError (Products Bytes) :=
  let dk : Except CryptoError Bytes :=
    match s.parent_ty with
    | .Key => (P.slip10KeyTryFrom guard).bind
        (fun parent => P.slip10DeriveKey parent s.chain)
    | .Seed => P.slip10DeriveSeed guard s.chain
  emapError FatalProcedureError.crypto
    (dk.map (fun k => { secret := k, output := P.slip10ChainCode k }))

/-- The GenerateKey procedure record of primitives.rs. -/
structure GenerateKey where
  ty : KeyType
  output : Location
  hint : RecordHint
deriving DecidableEq, Repr

/-- Embedding of the GenerateSecret impl for GenerateKey (primitives.rs
lines 395-409): the provider keygen samples a secret key; the sampled
32 bytes are passed explicitly and stored as secret. -/
def GenerateKey.generate (_g : GenerateKey) (sampled : Bytes) :
    Except FatalProcedureError (Products Unit) :=
  .ok { secret := sampled, output := () }

/-- The PublicKey procedure record of primitives.rs. -/
structure PublicKey where
  ty : KeyType
  private_key : Location
deriving DecidableEq, Repr

/-- Embedding of the UseSecret impl for PublicKey (primitives.rs lines
420-439): read a secret key from the lease per the key type, then
return its public-key encoding. -/
def PublicKey.use_secret (P : CryptoProvider) (p : PublicKey)
    (guard : Bytes) : Except FatalProcedureError Bytes :=
  match p.ty with
  | .Ed25519 =>
      emapError FatalProcedureError.crypto
        ((ed25519_secret_key guard).map (fun sk => P.ed25519Public sk))
  | .X25519 =>
      emapError FatalProcedureError.crypto
        ((x25519_secret_key guard).map (fun sk => P.x25519Public sk))

/-- PublicKey declares its source as the private-key location. -/
def PublicKey.source (p : PublicKey) : Location := p.private_key

/-- The Ed25519Sign procedure record of primitives.rs. -/
structure Ed25519Sign where
  msg : Bytes
  private_key : Location
deriving DecidableEq, Repr

/-- Embedding of the UseSecret impl for Ed25519Sign (primitives.rs
lines 452-464): read an ed25519 secret key from the lease, sign the
message, return the signature bytes. -/
def Ed25519Sign.use_secret (P : CryptoProvider) (s : Ed25519Sign)
    (guard : Bytes) : Except FatalProcedureError Bytes :=
  emapError FatalProcedureError.crypto
    ((ed25519_secret_key guard).map (fun sk => P.ed25519Sign sk s.msg))

/-- Ed25519Sign declares its source as the private-key location. -/
def Ed25519Sign.source (s : Ed25519Sign) : Location := s.private_key

/-- The X25519DiffieHellman procedure record of primitives.rs. -/
structure X25519DiffieHellman where
  public_key : Bytes
  private_key : Location
  shared_key : Location
  hint : RecordHint
deriving DecidableEq, Repr

/-- Embedding of the DeriveSecret impl for X25519DiffieHellman
(primitives.rs lines 477-498): read an x25519 secret key from the
lease, compute the shared secret with the supplied public key, store it
as secret with unit output. -/
def X25519DiffieHellman.derive (P : CryptoProvider)
    (d : X25519DiffieHellman) (guard : Bytes) :
    Except FatalProcedureError (Products Unit) :=
  emapError FatalProcedureError.crypto
    ((x25519_secret_key guard).map
      (fun sk => { secret := P.x25519Dh sk d.public_key, output := () }))

/-- X25519DiffieHellman declares its source as the private key and its
target as the shared-key location with hint. -/
def X25519DiffieHellman.target (d : X25519DiffieHellman) :
    Location × RecordHint := (d.shared_key, d.hint)

/-- The Hash procedure record of primitives.rs. -/
structure Hash where
  ty : HashType
  msg : Bytes
deriving DecidableEq, Repr

/-- Embedding of the ProcessData impl for Hash (primitives.rs lines
507-534): select the digest per the hash type over the message; the
digest is copied into a fixed-size buffer of the digest length and
returned. Every branch returns Ok. -/
def Hash.process (P : CryptoProvider) (h : Hash) :
    Except FatalProcedureError Bytes :=
  match h.ty with
  | .Blake2b => .ok (P.blake2b256 h.msg)
  | .Sha2 .Sha256 => .ok (P.sha256 h.msg)
  | .Sha2 .Sha384 => .ok (P.sha384 h.msg)
  | .Sha2 .Sha512 => .ok (P.sha512 h.msg)

/-- The digest length the fixed-size buffers of Hash.process dictate
per hash type. -/
def HashType.digestLength : HashType → Nat
  | .Blake2b => 32
  | .Sha2 .Sha256 => SHA256_LEN
  | .Sha2 .Sha384 => SHA384_LEN
  | .Sha2 .Sha512 => SHA512_LEN

/-- The Hmac procedure record of primitives.rs. -/
structure Hmac where
  ty : Sha2Hash
  msg : Bytes
  key : Location
deriving DecidableEq, Repr

/-- Embedding of the UseSecret impl for Hmac (primitives.rs lines
545-571): compute HMAC with the selected SHA-2 variant over the message
keyed by the lease bytes. Every branch returns Ok. -/
def Hmac.use_secret (P : CryptoProvider) (h : Hmac) (guard : Bytes) :
    Except FatalProcedureError Bytes :=
  match h.ty with
  | .Sha256 => .ok (P.hmacSha256 h.msg guard)
  | .Sha384 => .ok (P.hmacSha384 h.msg guard)
  | .Sha512 => .ok (P.hmacSha512 h.msg guard)

/-- Hmac declares its source as the key location. -/
def Hmac.source (h : Hmac) : Location := h.key

/-- The Hkdf procedure record of primitives.rs. -/
structure Hkdf where
  ty : Sha2Hash
  salt : Bytes
  label : Bytes
  ikm : Location
  okm : Location
  hint : RecordHint
deriving DecidableEq, Repr

/-- Embedding of the DeriveSecret impl for Hkdf (primitives.rs lines
588-625): HKDF with the selected SHA-2 variant over the lease as input
keying material with the given salt, expanding the label into a buffer
of the digest length; the expand call cannot fail at that length. The
result is the secret, the output unit. -/
def Hkdf.derive (P : CryptoProvider) (h : Hkdf) (guard : Bytes) :
    Except FatalProcedureError (Products Unit) :=
  let okm :=
    match h.ty with
    | .Sha256 => P.hkdfSha256 h.salt guard h.label
    | .Sha384 => P.hkdfSha384 h.salt guard h.label
    | .Sha512 => P.hkdfSha512 h.salt guard h.label
  .ok { secret := okm, output := () }

/-- Hkdf declares its source as the ikm location and its target as the
okm location with hint. -/
def Hkdf.target (h : Hkdf) : Location × RecordHint := (h.okm, h.hint)

/-- The Pbkdf2Hmac procedure record of primitives.rs. -/
structure Pbkdf2Hmac where
  ty : Sha2Hash
  password : Bytes
  salt : Bytes
  count : Nat
  output : Location
  hint : RecordHint
deriving DecidableEq, Repr

/-- Modelled from the spec: the external PBKDF2 primitives reject a
zero iteration count with an invalid-argument crypto error and
otherwise fill the output buffer; the primitive bodies are outside
src. -/
def PBKDF2_HMAC (dk : Bytes → Bytes → Nat → Bytes) (password salt : Bytes)
    (count : Nat) : Except CryptoError Bytes :=
  if count = 0 then .error (.invalidArgument "PBKDF2")
  else .ok (dk password salt count)

/-- Embedding of the GenerateSecret impl for Pbkdf2Hmac (primitives.rs
lines 642-670): run PBKDF2 with the selected SHA-2 variant over
password, salt and count into a buffer of the digest length,
propagating any primitive error; the buffer is the secret, the output
unit. -/
def Pbkdf2Hmac.generate (P : CryptoProvider) (p : Pbkdf2Hmac) :
    Except FatalProcedureError (Products Unit) :=
  let buffer : Except CryptoError Bytes :=
    match p.ty with
    | .Sha256 => PBKDF2_HMAC P.pbkdf2Sha256 p.password p.salt p.count
    | .Sha384 => PBKDF2_HMAC P.pbkdf2Sha384 p.password p.salt p.count
    | .Sha512 => PBKDF2_HMAC P.pbkdf2Sha512 p.password p.salt p.count
  emapError FatalProcedureError.crypto
    (buffer.map (fun b => { secret := b, output := () }))

/-- Pbkdf2Hmac declares its target location with hint. -/
def Pbkdf2Hmac.target (p : Pbkdf2Hmac) : Location × RecordHint :=
  (p.output, p.hint)

/-- The AeadEncrypt procedure record of primitives.rs. -/
structure AeadEncrypt where
  alg : AeadAlg
  associated_data : Bytes
  plaintext : Bytes
  nonce : Bytes
  key : Location
deriving DecidableEq, Repr

/-- Modelled from the spec: the provider try_encrypt checks the key
length (32 for both algorithms) and the nonce length (12 for
AES-256-GCM, 24 for XChaCha20-Poly1305), then fills the ciphertext
buffer and the 16-byte tag; the primitive body is outside src. -/
def tryEncrypt (P : CryptoProvider) (alg : AeadAlg)
    (key nonce ad pt : Bytes) : Except CryptoError (Bytes × Bytes) :=
  if key.length ≠ 32 then .error (.bufferSize key.length 32 "key")
  else if nonce.length ≠ alg.nonceLength then
    .error (.bufferSize nonce.length alg.nonceLength "nonce")
  else .ok (P.aeadCt alg key nonce ad pt, P.aeadTag alg key nonce ad pt)

/-- Embedding of the UseSecret impl for AeadEncrypt (primitives.rs
lines 687-718): a ciphertext buffer of the plaintext length and a
default tag are allocated, try_encrypt of the selected algorithm fills
both, and the output is the tag followed by the ciphertext. -/
def AeadEncrypt.use_secret (P : CryptoProvider) (a : AeadEncrypt)
    (guard : Bytes) : Except FatalProcedureError Bytes :=
  emapError FatalProcedureError.crypto
    ((tryEncrypt P a.alg guard a.nonce a.associated_data a.plaintext).map
      (fun ct => ct.2 ++ ct.1))

/-- AeadEncrypt declares its source as the key location. -/
def AeadEncrypt.source (a : AeadEncrypt) : Location := a.key

/-- The AeadDecrypt procedure record of primitives.rs. -/
structure AeadDecrypt where
  alg : AeadAlg
  associated_data : Bytes
  ciphertext : Bytes
  tag : Bytes
  nonce : Bytes
  key : Location
deriving DecidableEq, Repr

/-- The PrimitiveProcedure enum of primitives.rs: the closed tagged
union of all fifteen procedure variants. -/
inductive PrimitiveProcedure where
  | CopyRecord (p : CopyRecord)
  | Slip10Generate (p : Slip10Generate)
  | Slip10Derive (p : Slip10Derive)
  | BIP39Generate (p : BIP39Generate)
  | BIP39Recover (p : BIP39Recover)
  | PublicKey (p : PublicKey)
  | GenerateKey (p : GenerateKey)
  | Ed25519Sign (p : Ed25519Sign)
  | X25519DiffieHellman (p : X25519DiffieHellman)
  | Hash (p : Hash)
  | Hmac (p : Hmac)
  | Hkdf (p : Hkdf)
  | Pbkdf2Hmac (p : Pbkdf2Hmac)
  | AeadEncrypt (p : AeadEncrypt)
  | AeadDecrypt (p : AeadDecrypt)
deriving DecidableEq, Repr

/-- Embedding of PrimitiveProcedure::output (primitives.rs lines
86-99): the pure projection returning the declared output location of
the vault-writing variants and None for the rest. -/
def PrimitiveProcedure.output : PrimitiveProcedure → Option Location
  | .CopyRecord p => some p.output
  | .Slip10Generate p => some p.output
  | .Slip10Derive p => some p.output
  | .BIP39Generate p => some p.output
  | .BIP39Recover p => some p.output
  | .GenerateKey p => some p.output
  | .X25519DiffieHellman p => some p.shared_key
  | .Hkdf p => some p.okm
  | .Pbkdf2Hmac p => some p.output
  | _ => none

/-- Modelled from the spec: the vault the runner mediates, a partial
map from locations to record contents. -/
abbrev Vault := Location → Option Bytes

/-- Modelled from the spec: the runner step for a Use procedure. It
opens the lease at the source location (SourceMissing when absent),
hands it to the primitive, and propagates a primitive failure embedded
as a fatal ProcedureError; no vault write occurs. -/
def execUseSecret {O : Type} (v : Vault) (source : Location)
    (f : Bytes → Except FatalProcedureError O) : Except ProcedureError O :=
  match v source with
  | none => .error .sourceMissing
  | some lease => emapError ProcedureError.fatal (f lease)

/-- Modelled from the spec: the runner step for a Derive procedure. It
opens the lease at the source, runs the primitive, commits the produced
secret to the target location and returns the non-secret output with
the updated vault. -/
def execDeriveSecret {O : Type} (v : Vault) (source target : Location)
    (f : Bytes → Except FatalProcedureError (Products O)) :
    Except ProcedureError (O × Vault) :=
  match v source with
  | none => .error .sourceMissing
  | some lease =>
    match f lease with
    | .error e => .error (.fatal e)
    | .ok prods =>
      .ok (prods.output,
        fun l => if l = target then some prods.secret else v l)

/-- Modelled from the spec: the runner step for a Generate procedure.
It runs the primitive (no lease) and commits the produced secret to the
target location. -/
def execGenerateSecret {O : Type} (v : Vault) (target : Location)
    (f : Except FatalProcedureError (Products O)) :
    Except ProcedureError (O × Vault) :=
  match f with
  | .error e => .error (.fatal e)
  | .ok prods =>
    .ok (prods.output,
      fun l => if l = target then some prods.secret else v l)

/-- A sample location used to evaluate the development. -/
def locA : Location := { vault_path := [0], record_path := [1] }

/-- A second sample location used to evaluate the development. -/
def locB : Location := { vault_path := [0], record_path := [2] }

/-- A sample record hint used to evaluate the development. -/
def hintA : RecordHint := { hint := [7] }

/-- A sample vault holding a 31-byte record at locA. -/
def vault31 : Vault :=
  fun l => if l = locA then some (List.replicate 31 0) else none

/-- A sample vault holding the four bytes de ad be ef at locA. -/
def vaultDead : Vault :=
  fun l => if l = locA then some [222, 173, 190, 239] else none

/-- C3: the pure projection output returns the declared output location
for exactly the nine vault-writing variants (CopyRecord,
Slip10Generate, Slip10Derive, BIP39Generate, BIP39Recover, GenerateKey,
X25519DiffieHellman via shared_key, Hkdf via okm, Pbkdf2Hmac) and none
for the six read-only variants (PublicKey, Ed25519Sign, Hash, Hmac,
AeadEncrypt, AeadDecrypt), without executing the procedure. -/
theorem claim_C3_output_projection :
    (∀ p : CopyRecord, (PrimitiveProcedure.CopyRecord p).output = some p.output) ∧
    (∀ p : Slip10Generate, (PrimitiveProcedure.Slip10Generate p).output = some p.output) ∧
    (∀ p : Slip10Derive, (PrimitiveProcedure.Slip10Derive p).output = some p.output) ∧
    (∀ p : BIP39Generate, (PrimitiveProcedure.BIP39Generate p).output = some p.output) ∧
    (∀ p : BIP39Recover, (PrimitiveProcedure.BIP39Recover p).output = some p.output) ∧
    (∀ p : GenerateKey, (PrimitiveProcedure.GenerateKey p).output = some p.output) ∧
    (∀ p : X25519DiffieHellman,
      (PrimitiveProcedure.X25519DiffieHellman p).output = some p.shared_key) ∧
    (∀ p : Hkdf, (PrimitiveProcedure.Hkdf p).output = some p.okm) ∧
    (∀ p : Pbkdf2Hmac, (PrimitiveProcedure.Pbkdf2Hmac p).output = some p.output) ∧
    (∀ p : PublicKey, (PrimitiveProcedure.PublicKey p).output = none) ∧
    (∀ p : Ed25519Sign, (PrimitiveProcedure.Ed25519Sign p).output = none) ∧
    (∀ p : Hash, (PrimitiveProcedure.Hash p).output = none) ∧
    (∀ p : Hmac, (PrimitiveProcedure.Hmac p).output = none) ∧
    (∀ p : AeadEncrypt, (PrimitiveProcedure.AeadEncrypt p).output = none) ∧
    (∀ p : AeadDecrypt, (PrimitiveProcedure.AeadDecrypt p).output = none) :=
  ⟨fun _ => rfl, fun _ => rfl, fun _ => rfl, fun _ => rfl, fun _ => rfl,
   fun _ => rfl, fun _ => rfl, fun _ => rfl, fun _ => rfl, fun _ => rfl,
   fun _ => rfl, fun _ => rfl, fun _ => rfl, fun _ => rfl, fun _ => rfl⟩

/-- C10: Hash.process is total: for every hash type and message it
returns Ok with a digest whose length is the digest length of the
selected hash (32 for Blake2b and SHA-256, 48 for SHA-384, 64 for
SHA-512); the error branch is unreachable. -/
theorem claim_C10_hash_total :
    ∀ (P : CryptoProvider) (h : Hash),
      ∃ d, h.process P = .ok d ∧ d.length = h.ty.digestLength := by
  intro P h
  obtain ⟨ty, msg⟩ := h
  cases ty with
  | Blake2b => exact ⟨_, rfl, P.blake2b256_len msg⟩
  | Sha2 s =>
    cases s with
    | Sha256 => exact ⟨_, rfl, P.sha256_len msg⟩
    | Sha384 => exact ⟨_, rfl, P.sha384_len msg⟩
    | Sha512 => exact ⟨_, rfl, P.sha512_len msg⟩

/-- C9: BIP39Recover.generate returns Ok for every mnemonic and every
passphrase, producing a 64-byte secret; no validation of the mnemonic
is performed and no error is ever returned. -/
theorem claim_C9_recover_total :
    ∀ (P : CryptoProvider) (r : BIP39Recover),
      ∃ seed, r.generate P = .ok { secret := seed, output := () } ∧
        seed.length = 64 :=
  fun P r =>
    ⟨P.mnemonicToSeed r.mnemonic (r.passphrase.getD ""), rfl,
     P.mnemonicToSeed_len r.mnemonic (r.passphrase.getD "")⟩

/-- C6: the mnemonic output of BIP39Generate with passphrase p, fed to
BIP39Recover with the same passphrase, yields the identical stored
64-byte seed; both procedures read an absent passphrase as the empty
string. -/
theorem claim_C6_bip39_roundtrip :
    ∀ (P : CryptoProvider) (g : BIP39Generate) (entropy : Bytes)
      (loc2 : Location) (h2 : RecordHint),
      ∃ mnemonic seed,
        g.generate P entropy = .ok { secret := seed, output := mnemonic } ∧
        BIP39Recover.generate P
            { passphrase := g.passphrase, mnemonic := mnemonic,
              output := loc2, hint := h2 }
          = .ok { secret := seed, output := () } ∧
        BIP39Generate.generate P
            { passphrase := none, language := g.language,
              output := g.output, hint := g.hint } entropy
          = BIP39Generate.generate P
              { passphrase := some "", language := g.language,
                output := g.output, hint := g.hint } entropy ∧
        BIP39Recover.generate P
            { passphrase := none, mnemonic := mnemonic,
              output := loc2, hint := h2 }
          = BIP39Recover.generate P
              { passphrase := some "", mnemonic := mnemonic,
                output := loc2, hint := h2 } :=
  fun P g entropy _loc2 _h2 =>
    ⟨P.bip39Encode entropy g.language,
     P.mnemonicToSeed (P.bip39Encode entropy g.language) (g.passphrase.getD ""),
     rfl, rfl, rfl, rfl⟩

/-- C2: a successful AeadEncrypt, for either algorithm and any key,
nonce, associated data and plaintext, returns the 16-byte tag followed
by the ciphertext, and the output length is the plaintext length plus
16. -/
theorem claim_C2_aead_tag_first :
    ∀ (P : CryptoProvider) (a : AeadEncrypt) (guard out : Bytes),
      a.use_secret P guard = .ok out →
      out = P.aeadTag a.alg guard a.nonce a.associated_data a.plaintext
            ++ P.aeadCt a.alg guard a.nonce a.associated_data a.plaintext ∧
      (P.aeadTag a.alg guard a.nonce a.associated_data a.plaintext).length = 16 ∧
      out.length = a.plaintext.length + 16 := by
  intro P a guard out h
  unfold AeadEncrypt.use_secret tryEncrypt at h
  by_cases hk : guard.length ≠ 32
  · rw [if_pos hk] at h
    exact absurd h (by simp [emapError, Except.map])
  · rw [if_neg hk] at h
    by_cases hn : a.nonce.length ≠ a.alg.nonceLength
    · rw [if_pos hn] at h
      exact absurd h (by simp [emapError, Except.map])
    · rw [if_neg hn] at h
      simp only [emapError, Except.map, Except.ok.injEq] at h
      subst h
      refine ⟨rfl, P.aeadTag_len _ _ _ _ _, ?_⟩
      rw [List.length_append, P.aeadTag_len, P.aeadCt_len]
      exact Nat.add_comm _ _

/-- C2 witness: concrete successful AES-256-GCM encryption of a 3-byte
plaintext under the trivial provider. -/
theorem claim_C2_aead_tag_first_witness :
    (List.replicate 16 (0 : Nat) ++ List.replicate 3 0)
      = dummyProvider.aeadTag .Aes256Gcm (List.replicate 32 0)
          (List.replicate 12 0) [] [1, 2, 3]
        ++ dummyProvider.aeadCt .Aes256Gcm (List.replicate 32 0)
          (List.replicate 12 0) [] [1, 2, 3] ∧
    (dummyProvider.aeadTag .Aes256Gcm (List.replicate 32 0)
      (List.replicate 12 0) [] [1, 2, 3]).length = 16 ∧
    (List.replicate 16 (0 : Nat) ++ List.replicate 3 0).length
      = ([1, 2, 3] : Bytes).length + 16 :=
  claim_C2_aead_tag_first dummyProvider
    { alg := .Aes256Gcm, associated_data := [], plaintext := [1, 2, 3],
      nonce := List.replicate 12 0, key := locA }
    (List.replicate 32 0) (List.replicate 16 0 ++ List.replicate 3 0)
    rfl

/-- C4: for PublicKey with the Ed25519 key type and for Ed25519Sign,
every lease of length at least 32 is accepted and the result is
computed from exactly the first 32 bytes of the lease, so a longer
lease gives the same result as the 32-byte lease holding its prefix; a
lease shorter than 32 bytes fails. -/
theorem claim_C4_ed25519_lease_truncation :
    ∀ (P : CryptoProvider) (lease msg : Bytes) (loc : Location),
      (32 ≤ lease.length →
        ed25519_secret_key lease = .ok (lease.take 32) ∧
        PublicKey.use_secret P { ty := .Ed25519, private_key := loc } lease
          = PublicKey.use_secret P { ty := .Ed25519, private_key := loc }
              (lease.take 32) ∧
        Ed25519Sign.use_secret P { msg := msg, private_key := loc } lease
          = Ed25519Sign.use_secret P { msg := msg, private_key := loc }
              (lease.take 32) ∧
        PublicKey.use_secret P { ty := .Ed25519, private_key := loc } lease
          = .ok (P.ed25519Public (lease.take 32)) ∧
        Ed25519Sign.use_secret P { msg := msg, private_key := loc } lease
          = .ok (P.ed25519Sign (lease.take 32) msg)) ∧
      (lease.length < 32 →
        ∃ e, PublicKey.use_secret P { ty := .Ed25519, private_key := loc } lease
              = .error e ∧
          Ed25519Sign.use_secret P { msg := msg, private_key := loc } lease
              = .error e) := by
  intro P lease msg loc
  constructor
  · intro hge
    have hnot : ¬ lease.length < ED25519_SECRET_KEY_LENGTH :=
      Nat.not_lt.mpr hge
    have htake : (lease.take 32).length = 32 := by
      simp [List.length_take, Nat.min_eq_left hge]
    have hnot2 : ¬ (lease.take 32).length < ED25519_SECRET_KEY_LENGTH := by
      rw [htake]; exact Nat.lt_irrefl 32
    have hkey : ed25519_secret_key lease
        = .ok (lease.take ED25519_SECRET_KEY_LENGTH) := by
      unfold ed25519_secret_key; rw [if_neg hnot]
    have hkey2 : ed25519_secret_key (lease.take 32)
        = .ok (lease.take ED25519_SECRET_KEY_LENGTH) := by
      unfold ed25519_secret_key
      rw [if_neg hnot2]
      simp [ED25519_SECRET_KEY_LENGTH, List.take_take]
    refine ⟨hkey, ?_, ?_, ?_, ?_⟩ <;>
      simp [PublicKey.use_secret, Ed25519Sign.use_secret, hkey, hkey2,
        emapError, Except.map, ED25519_SECRET_KEY_LENGTH]
  · intro hlt
    have hkey : ed25519_secret_key lease
        = .error (.bufferSize lease.length ED25519_SECRET_KEY_LENGTH
            "data buffer") := by
      have hlt2 : lease.length < ED25519_SECRET_KEY_LENGTH := hlt
      unfold ed25519_secret_key; rw [if_pos hlt2]
    exact ⟨.crypto (.bufferSize lease.length ED25519_SECRET_KEY_LENGTH
      "data buffer"),
      by simp [PublicKey.use_secret, hkey, emapError, Except.map],
      by simp [Ed25519Sign.use_secret, hkey, emapError, Except.map]⟩

/-- C4 witness: a 33-byte lease signs the same as its 32-byte prefix,
and a 1-byte lease fails for both PublicKey and Ed25519Sign. -/
theorem claim_C4_ed25519_lease_truncation_witness :
    (Ed25519Sign.use_secret dummyProvider { msg := [5], private_key := locA }
        (List.replicate 33 1)
      = Ed25519Sign.use_secret dummyProvider { msg := [5], private_key := locA }
          ((List.replicate 33 1).take 32)) ∧
    (∃ e, PublicKey.use_secret dummyProvider
            { ty := .Ed25519, private_key := locA } [0] = .error e ∧
      Ed25519Sign.use_secret dummyProvider { msg := [5], private_key := locA }
            [0] = .error e) :=
  ⟨((claim_C4_ed25519_lease_truncation dummyProvider (List.replicate 33 1) [5]
      locA).1 (by decide)).2.2.1,
   (claim_C4_ed25519_lease_truncation dummyProvider [0] [5] locA).2 (by decide)⟩

/-- C8: every non-random variant (Hash, Hmac, Hkdf, Pbkdf2Hmac,
Slip10Derive, X25519DiffieHellman, BIP39Recover, PublicKey,
Ed25519Sign) is deterministic: two executions with identical procedure
parameters and identical lease contents produce identical results. -/
theorem claim_C8_determinism :
    ∀ (P : CryptoProvider),
      (∀ h1 h2 : Hash, h1 = h2 → h1.process P = h2.process P) ∧
      (∀ (h1 h2 : Hmac) (g1 g2 : Bytes), h1 = h2 → g1 = g2 →
        h1.use_secret P g1 = h2.use_secret P g2) ∧
      (∀ (h1 h2 : Hkdf) (g1 g2 : Bytes), h1 = h2 → g1 = g2 →
        h1.derive P g1 = h2.derive P g2) ∧
      (∀ p1 p2 : Pbkdf2Hmac, p1 = p2 → p1.generate P = p2.generate P) ∧
      (∀ (s1 s2 : Slip10Derive) (g1 g2 : Bytes), s1 = s2 → g1 = g2 →
        s1.derive P g1 = s2.derive P g2) ∧
      (∀ (d1 d2 : X25519DiffieHellman) (g1 g2 : Bytes), d1 = d2 → g1 = g2 →
        d1.derive P g1 = d2.derive P g2) ∧
      (∀ r1 r2 : BIP39Recover, r1 = r2 → r1.generate P = r2.generate P) ∧
      (∀ (k1 k2 : PublicKey) (g1 g2 : Bytes), k1 = k2 → g1 = g2 →
        k1.use_secret P g1 = k2.use_secret P g2) ∧
      (∀ (s1 s2 : Ed25519Sign) (g1 g2 : Bytes), s1 = s2 → g1 = g2 →
        s1.use_secret P g1 = s2.use_secret P g2) := by
  intro P
  refine ⟨?_, ?_, ?_, ?_, ?_, ?_, ?_, ?_, ?_⟩ <;>
    intros <;> subst_vars <;> rfl

/-- C8 witness: two identical HMAC-SHA-256 runs on a concrete message
and lease agree under the trivial provider. -/
theorem claim_C8_determinism_witness :
    Hmac.use_secret dummyProvider { ty := .Sha256, msg := [1], key := locA } [2]
      = Hmac.use_secret dummyProvider
          { ty := .Sha256, msg := [1], key := locA } [2] :=
  (claim_C8_determinism dummyProvider).2.1
    { ty := .Sha256, msg := [1], key := locA }
    { ty := .Sha256, msg := [1], key := locA } [2] [2] rfl rfl

/-- C1 counterexample: a 31-byte lease under PublicKey with the X25519
key type fails, but with a fatal crypto buffer-size error, not with the
recoverable ProcedureError inputLengthMismatch the claim names. -/
theorem claim_C1_counterexample :
    execUseSecret vault31 locA
        (PublicKey.use_secret dummyProvider
          { ty := .X25519, private_key := locA })
      = .error (.fatal (.crypto (.bufferSize 31 32 "data buffer"))) ∧
    execUseSecret vault31 locA
        (PublicKey.use_secret dummyProvider
          { ty := .X25519, private_key := locA })
      ≠ .error .inputLengthMismatch ∧
    ProcedureError.fatal (.crypto (.bufferSize 31 32 "data buffer"))
      ≠ ProcedureError.inputLengthMismatch := by
  have h1 : execUseSecret vault31 locA
      (PublicKey.use_secret dummyProvider
        { ty := .X25519, private_key := locA })
    = .error (.fatal (.crypto (.bufferSize 31 32 "data buffer"))) := rfl
  refine ⟨h1, ?_, by decide⟩
  rw [h1]
  intro h
  exact absurd (Except.error.inj h) (by decide)

/-- C1 amended: for every procedure reading an X25519 secret key
(PublicKey with the X25519 key type, and X25519DiffieHellman), a lease
whose length is not exactly 32 makes the procedure fail with a
buffer-size crypto error propagated as a fatal error (a
FatalProcedureError embedded in the ProcedureError the dispatcher
returns), and the cryptographic primitive is not invoked: the result
does not depend on the provider. -/
theorem claim_C1_amended :
    ∀ (P Q : CryptoProvider) (v : Vault) (src tgt : Location)
      (hnt : RecordHint) (pub lease : Bytes),
      v src = some lease → lease.length ≠ 32 →
      x25519_secret_key lease
        = .error (.bufferSize lease.length X25519_SECRET_KEY_LENGTH
            "data buffer") ∧
      execUseSecret v src
          (PublicKey.use_secret P { ty := .X25519, private_key := src })
        = .error (.fatal (.crypto
            (.bufferSize lease.length X25519_SECRET_KEY_LENGTH
              "data buffer"))) ∧
      execDeriveSecret v src tgt
          (X25519DiffieHellman.derive P
            { public_key := pub, private_key := src, shared_key := tgt,
              hint := hnt })
        = .error (.fatal (.crypto
            (.bufferSize lease.length X25519_SECRET_KEY_LENGTH
              "data buffer"))) ∧
      PublicKey.use_secret P { ty := .X25519, private_key := src } lease
        = PublicKey.use_secret Q { ty := .X25519, private_key := src } lease ∧
      X25519DiffieHellman.derive P
          { public_key := pub, private_key := src, shared_key := tgt,
            hint := hnt } lease
        = X25519DiffieHellman.derive Q
            { public_key := pub, private_key := src, shared_key := tgt,
              hint := hnt } lease := by
  intro P Q v src tgt hnt pub lease hv hlen
  have hne : lease.length ≠ X25519_SECRET_KEY_LENGTH := hlen
  have hkey : x25519_secret_key lease
      = .error (.bufferSize lease.length X25519_SECRET_KEY_LENGTH
          "data buffer") := by
    unfold x25519_secret_key; rw [if_pos hne]
  refine ⟨hkey, ?_, ?_, ?_, ?_⟩
  · simp [execUseSecret, hv, PublicKey.use_secret, hkey, emapError,
      Except.map]
  · simp [execDeriveSecret, hv, X25519DiffieHellman.derive, hkey,
      emapError, Except.map]
  · simp [PublicKey.use_secret, hkey, emapError, Except.map]
  · simp [X25519DiffieHellman.derive, hkey, emapError, Except.map]

/-- C1 amended witness: the Diffie-Hellman derive on the concrete
31-byte record fails with the fatal buffer-size error. -/
theorem claim_C1_amended_witness :
    execDeriveSecret vault31 locA locB
        (X25519DiffieHellman.derive dummyProvider
          { public_key := [9], private_key := locA, shared_key := locB,
            hint := hintA })
      = .error (.fatal (.crypto (.bufferSize 31 32 "data buffer"))) :=
  (claim_C1_amended dummyProvider dummyProvider vault31 locA locB hintA [9]
    (List.replicate 31 0) rfl (by decide)).2.2.1

/-- C5 counterexample: Pbkdf2Hmac with iteration count zero fails, but
with a crypto error propagated as a fatal error, not with the
recoverable ProcedureError invalidParameter the claim names. -/
theorem claim_C5_counterexample :
    Pbkdf2Hmac.generate dummyProvider
        { ty := .Sha256, password := [1], salt := [2], count := 0,
          output := locA, hint := hintA }
      = .error (.crypto (.invalidArgument "PBKDF2")) ∧
    execGenerateSecret vaultDead locA
        (Pbkdf2Hmac.generate dummyProvider
          { ty := .Sha256, password := [1], salt := [2], count := 0,
            output := locA, hint := hintA })
      = .error (.fatal (.crypto (.invalidArgument "PBKDF2"))) ∧
    ProcedureError.fatal (.crypto (.invalidArgument "PBKDF2"))
      ≠ ProcedureError.invalidParameter :=
  ⟨rfl, rfl, by decide⟩

/-- C5 amended: for every hash variant, password, salt, target and
vault, Pbkdf2Hmac with iteration count zero fails with the invalid
argument crypto error of the primitive, propagated as a fatal error
embedded in the dispatcher error. -/
theorem claim_C5_amended :
    ∀ (P : CryptoProvider) (ty : Sha2Hash) (password salt : Bytes)
      (out : Location) (hnt : RecordHint) (v : Vault),
      Pbkdf2Hmac.generate P
          { ty := ty, password := password, salt := salt, count := 0,
            output := out, hint := hnt }
        = .error (.crypto (.invalidArgument "PBKDF2")) ∧
      execGenerateSecret v out
          (Pbkdf2Hmac.generate P
            { ty := ty, password := password, salt := salt, count := 0,
              output := out, hint := hnt })
        = .error (.fatal (.crypto (.invalidArgument "PBKDF2"))) := by
  intro P ty password salt out hnt v
  cases ty <;> exact ⟨rfl, rfl⟩

/-- C7: CopyRecord.derive returns the lease contents as the produced
secret with unit output, its declared source is the input location and
its declared target is the output location with the given hint, and a
successful execution leaves a byte-identical copy of the source record
at the target while the source record is unchanged. -/
theorem claim_C7_copy_record :
    ∀ (c : CopyRecord) (lease : Bytes),
      c.derive lease = .ok { secret := lease, output := () } ∧
      c.source = c.input ∧
      c.target = (c.output, c.hint) ∧
      ∀ (v : Vault) (b : Bytes), v c.input = some b →
        ∃ v2 : Vault,
          execDeriveSecret v c.input c.output c.derive = .ok ((), v2) ∧
          v2 c.output = some b ∧
          v2 c.input = v c.input ∧
          ∀ l, l ≠ c.output → v2 l = v l := by
  intro c lease
  refine ⟨rfl, rfl, rfl, ?_⟩
  intro v b hv
  refine ⟨fun l => if l = c.output then some b else v l, ?_, ?_, ?_, ?_⟩
  · simp [execDeriveSecret, hv, CopyRecord.derive]
  · simp
  · by_cases h : c.input = c.output
    · have hvb : v c.output = some b := h ▸ hv
      simp [h, hvb]
    · simp [h]
  · intro l hl
    simp [hl]

/-- C7 witness: copying the concrete record de ad be ef from locA to
locB leaves the copy at locB and locA unchanged. -/
theorem claim_C7_copy_record_witness :
    CopyRecord.derive { input := locA, output := locB, hint := hintA }
        [222, 173, 190, 239]
      = .ok { secret := [222, 173, 190, 239], output := () } ∧
    ∃ v2 : Vault,
      execDeriveSecret vaultDead locA locB
          (CopyRecord.derive { input := locA, output := locB, hint := hintA })
        = .ok ((), v2) ∧
      v2 locB = some [222, 173, 190, 239] ∧
      v2 locA = vaultDead locA ∧
      ∀ l, l ≠ locB → v2 l = vaultDead l :=
  ⟨(claim_C7_copy_record { input := locA, output := locB, hint := hintA }
      [222, 173, 190, 239]).1,
   (claim_C7_copy_record { input := locA, output := locB, hint := hintA }
      [222, 173, 190, 239]).2.2.2 vaultDead [222, 173, 190, 239] rfl⟩

end Stronghold
